import Mathlib

/-!
Verification development for the ChatWith Wiki service (src/app/main.py).

The service routes user queries through a layered router: pattern
shortcuts (greetings, farewells, acknowledgments, age questions,
contextual follow-ups), an LLM relevance check, vector retrieval and LLM
summarization; on startup it ingests one Wikipedia page into the vector
store after splitting it into roughly 1000-character chunks.

Python strings are modelled as Lean strings (lists of characters), and
the Python string methods used by the router (lower, strip, startswith,
endswith, substring containment, split on a separator) are modelled as
explicit functions on character lists.  External effects are modelled as
explicit inputs: an LLM call is a value of type Except Unit String
(error = the call raised), the vector store result is a record of
parallel lists, the collection is a list of entries, and the current
date is a record of numbers.  Floats (embedding distances) are
abstracted as rationals; no arithmetic is ever performed on them.
-/

set_option maxRecDepth 16000

namespace ChatWiki

/-- Model of the Python test that one string is an initial segment of
another, on character lists. -/
def listHasPre : List Char → List Char → Bool
  | [], _ => true
  | _ :: _, [] => false
  | a :: ps, b :: ss => a == b && listHasPre ps ss

/-- Model of the Python substring test (the in operator on str),
on character lists: does the pattern occur contiguously in the list? -/
def listHasSub (pat : List Char) : List Char → Bool
  | [] => pat.isEmpty
  | b :: ss => listHasPre pat (b :: ss) || listHasSub pat ss

/-- Model of Python str.strip(): drop leading and trailing whitespace. -/
def stripL (l : List Char) : List Char :=
  ((l.dropWhile Char.isWhitespace).reverse.dropWhile Char.isWhitespace).reverse

/-- The apostrophe character, as a one-character string. -/
def aposS : String := String.singleton (Char.ofNat 39)

/-- Model of Python str.lower() (ASCII case folding). -/
def pyLower (s : String) : String := String.mk (s.data.map Char.toLower)

/-- Model of Python str.upper() (ASCII case folding). -/
def pyUpper (s : String) : String := String.mk (s.data.map Char.toUpper)

/-- Model of Python str.strip(). -/
def pyStrip (s : String) : String := String.mk (stripL s.data)

/-- The normalization query.lower().strip() applied by every router
function before pattern matching. -/
def pyNorm (s : String) : String := pyStrip (pyLower s)

/-- Python string equality. -/
def pyEq (a b : String) : Bool := a.data == b.data

/-- Python str.startswith. -/
def pyStarts (s pat : String) : Bool := listHasPre pat.data s.data

/-- Python str.endswith. -/
def pyEnds (s pat : String) : Bool := listHasPre pat.data.reverse s.data.reverse

/-- Python substring containment (pat in s). -/
def pyHas (s pat : String) : Bool := listHasSub pat.data s.data

/-- The phrase matcher used for the greeting, farewell and acknowledgment
pattern lists: the normalized query is in the list, or starts with a
pattern followed by a space, or ends with a space followed by a pattern,
or equals a pattern.  Mirrors the repeated Python idiom
ql in pats or any(ql.startswith(g + " ") or ql.endswith(" " + g) or ql == g). -/
def phraseMatch (pats : List String) (ql : String) : Bool :=
  pats.any (fun g => pyEq ql g) ||
  pats.any (fun g => pyStarts ql (g ++ " ") || pyEnds ql (" " ++ g) || pyEq ql g)

/-- The substring matcher used for the age and contextual pattern lists:
any(pattern in ql for pattern in pats). -/
def substrMatch (pats : List String) (ql : String) : Bool :=
  pats.any (fun p => pyHas ql p)

/-- greeting_patterns of check_query_relevance (main.py lines 178-182). -/
def relGreetingPats : List String :=
  ["hi", "hello", "hey", "good morning", "good afternoon", "good evening",
   "how are you", "what" ++ aposS ++ "s up", "greetings", "nice to meet you",
   "thanks", "thank you", "bye", "goodbye", "see you", "ok", "okay"]

/-- contextual_patterns of check_query_relevance (main.py lines 185-189). -/
def relContextualPats : List String :=
  ["so how old", "how old", "what age", "his age", "age now", "current age",
   "so what", "and what", "tell me more", "more info", "more details",
   "when was that", "what year", "which year", "how many", "how much"]

/-- greeting_patterns of summarize_search_results (main.py lines 268-271). -/
def sumGreetingPats : List String :=
  ["hi", "hello", "hey", "good morning", "good afternoon", "good evening",
   "how are you", "what" ++ aposS ++ "s up", "greetings", "nice to meet you"]

/-- farewell_patterns of summarize_search_results (main.py line 273). -/
def farewellPats : List String := ["thanks", "thank you", "bye", "goodbye", "see you"]

/-- acknowledgment_patterns of summarize_search_results (main.py line 274). -/
def ackPats : List String := ["ok", "okay", "alright", "got it"]

/-- age_patterns of summarize_search_results and search_documents
(main.py lines 277 and 445). -/
def agePats : List String :=
  ["so how old", "how old", "what age", "his age", "age now", "current age"]

/-- greeting_patterns of search_documents (main.py lines 438-442). -/
def searchGreetingPats : List String :=
  ["hi", "hello", "hey", "good morning", "good afternoon", "good evening",
   "how are you", "what" ++ aposS ++ "s up", "greetings", "nice to meet you",
   "thanks", "thank you", "bye", "goodbye", "see you", "ok", "okay",
   "alright", "got it"]

/-- The greeting classification inside check_query_relevance. -/
def isGreetingRel (q : String) : Bool := phraseMatch relGreetingPats (pyNorm q)

/-- The contextual follow-up classification inside check_query_relevance. -/
def isContextualRel (q : String) : Bool := substrMatch relContextualPats (pyNorm q)

/-- The greeting classification inside summarize_search_results. -/
def isGreetingSum (q : String) : Bool := phraseMatch sumGreetingPats (pyNorm q)

/-- The farewell classification inside summarize_search_results. -/
def isFarewellSum (q : String) : Bool := phraseMatch farewellPats (pyNorm q)

/-- The acknowledgment classification inside summarize_search_results. -/
def isAckSum (q : String) : Bool := phraseMatch ackPats (pyNorm q)

/-- The age-question classification inside summarize_search_results. -/
def isAgeSum (q : String) : Bool := substrMatch agePats (pyNorm q)

/-- The greeting classification inside search_documents. -/
def isGreetingSearch (q : String) : Bool := phraseMatch searchGreetingPats (pyNorm q)

/-- The age-question classification inside search_documents. -/
def isAgeSearch (q : String) : Bool := substrMatch agePats (pyNorm q)

/-- check_query_relevance (main.py lines 174-262).  The LLM call is an
input: Except.ok s is a completed call whose message content is s,
Except.error is a call that raised (the surrounding try/except then
returns True so that legitimate queries are not blocked).  The result is
the returned Boolean paired with a flag recording whether the LLM call
was reached. -/
def check_query_relevance (query : String) (llm : Except Unit String) : Bool × Bool :=
  if isGreetingRel query = true then (true, false)
  else if isContextualRel query = true then (true, false)
  else
    match llm with
    | Except.ok content => (pyEq (pyUpper (pyStrip content)) "YES", true)
    | Except.error _ => (true, true)

/-- The predicate of being matched by some shortcut matcher as listed by
the spec: the three phrase matchers of summarize_search_results
(greetings, farewells, acknowledgments), the age substring matcher, and
the contextual follow-up substring matcher of check_query_relevance. -/
def specShortcutMatch (q : String) : Bool :=
  isGreetingSum q || isFarewellSum q || isAckSum q || isAgeSum q || isContextualRel q

/-- A calendar date as produced by datetime.now(). -/
structure PyDate where
  year : Nat
  month : Nat
  day : Nat

/-- The age computation of summarize_search_results (main.py lines 310-315):
current year minus 1979, decremented when the current month and day precede
April 10. -/
def computeAge (today : PyDate) : Int :=
  let age : Int := (today.year : Int) - 1979
  if today.month < 4 ∨ (today.month = 4 ∧ today.day < 10) then age - 1 else age

/-- The canned greeting reply of summarize_search_results (line 288). -/
def greetingResponse : String :=
  "Hello! I" ++ aposS ++ "m your AI assistant for Sai Sai Kham Leng. I can help you learn about his music, movies, career, and personal life. What would you like to know about him?"

/-- The canned farewell reply of summarize_search_results (line 297). -/
def farewellResponse : String :=
  "You" ++ aposS ++ "re welcome! Feel free to ask me anything else about Sai Sai Kham Leng anytime. Have a great day!"

/-- The canned acknowledgment reply of summarize_search_results (line 306). -/
def ackResponse : String :=
  "Great! Is there anything else you" ++ aposS ++ "d like to know about Sai Sai Kham Leng? I can tell you about his albums, movies, career highlights, or personal life."

/-- The computed age reply of summarize_search_results (line 317). -/
def ageAnswer (today : PyDate) : String :=
  "Sai Sai Kham Leng is currently " ++ toString (computeAge today) ++ " years old. He was born on April 10, 1979."

/-- The no-documents safety reply of summarize_search_results (line 321). -/
def noDocsAnswer : String :=
  "I" ++ aposS ++ "d be happy to help you learn about Sai Sai Kham Leng! Could you ask me something specific about his music, movies, or career?"

/-- The reply returned when summarization raises (line 367). -/
def summarizeFallback : String :=
  "I found some relevant information, but couldn" ++ aposS ++ "t generate a summary at the moment."

/-- summarize_search_results (main.py lines 264-367).  The current date
and the LLM call outcome are inputs; an LLM call that raises is absorbed
by the surrounding try/except, which returns the fallback text. -/
def summarize_search_results (query : String) (documents : List String)
    (today : PyDate) (llm : Except Unit String) : String :=
  if isGreetingSum query = true then greetingResponse
  else if isFarewellSum query = true then farewellResponse
  else if isAckSum query = true then ackResponse
  else if isAgeSum query = true then ageAnswer today
  else if (documents.isEmpty || pyEq (documents.headD "") "") = true then noDocsAnswer
  else
    match llm with
    | Except.ok content => pyStrip content
    | Except.error _ => summarizeFallback

/-- Document metadata, modelled as an association list. -/
abbrev Metadata := List (String × String)

/-- The result of collection.query for one query text: four parallel
lists, as returned by the vector store. -/
structure StoreResults where
  documents : List String
  metadatas : List Metadata
  distances : List Rat
  ids : List String

/-- The QueryResponse pydantic model (main.py lines 48-55). -/
structure QueryResponse where
  documents : List String
  metadatas : List Metadata
  distances : List Rat
  ids : List String
  summary : Option String
  is_relevant : Bool
  message : Option String

/-- The rejection message of the not-relevant branch (line 434). -/
def notRelatedMessage : String :=
  "Your question doesn" ++ aposS ++ "t seem to be related to Sai Sai Kham Leng. Please ask about his music, movies, career, or personal life."

/-- The summary of the empty-results branch (line 482). -/
def noResultsSummary : String :=
  "I couldn" ++ aposS ++ "t find specific information about that topic in the available content about Sai Sai Kham Leng."

/-- The message of the empty-results branch (line 484). -/
def noMatchMessage : String := "No matching content found."

/-- The /search/ endpoint search_documents (main.py lines 420-499).
Inputs model the external world: the two LLM calls (relevance check and
summarization) and the vector store response.  The second component of
the result records whether collection.query was issued. -/
def search_documents (query : String) (today : PyDate)
    (llmRel llmSum : Except Unit String) (store : StoreResults) :
    QueryResponse × Bool :=
  if (check_query_relevance query llmRel).1 = true then
    if (isGreetingSearch query || isAgeSearch query) = true then
      (⟨[], [], [], [], some (summarize_search_results query [] today llmSum),
        true, none⟩, false)
    else if store.documents.isEmpty = true then
      (⟨[], [], [], [], some noResultsSummary, true, some noMatchMessage⟩, true)
    else
      (⟨store.documents, store.metadatas, store.distances, store.ids,
        some (summarize_search_results query store.documents today llmSum),
        true, none⟩, true)
  else
    (⟨[], [], [], [], none, false, some notRelatedMessage⟩, false)

/-- Model of content.split with separator a blank line (two newline
characters), as used by the startup chunker (main.py line 130): the
Python split keeps empty segments and scans for leftmost non-overlapping
occurrences of the separator. -/
def splitNl2 : List Char → List (List Char)
  | [] => [[]]
  | [c] => [[c]]
  | a :: b :: rest =>
    if a == '\n' && b == '\n' then [] :: splitNl2 rest
    else
      match splitNl2 (b :: rest) with
      | [] => [[a]]
      | g :: gs => (a :: g) :: gs

/-- The blank-line separator the chunker joins and splits on. -/
def nl2 : List Char := ['\n', '\n']

/-- One iteration of the chunking loop of check_and_ingest_wikipedia
(main.py lines 134-139): the state is the pair of emitted chunks and the
chunk being accumulated; chunk_size is the literal 1000. -/
def chunkStep (st : List (List Char) × List Char) (p : List Char) :
    List (List Char) × List Char :=
  if 1000 < st.2.length + p.length ∧ st.2 ≠ [] then
    (st.1 ++ [stripL st.2], p)
  else
    (st.1, if st.2 ≠ [] then st.2 ++ nl2 ++ p else p)

/-- The chunking loop run from a given state, followed by the final
flush of lines 141-142. -/
def buildFrom (paras : List (List Char)) (chunks : List (List Char))
    (cur : List Char) : List (List Char) :=
  let st := paras.foldl chunkStep (chunks, cur)
  if st.2 ≠ [] then st.1 ++ [stripL st.2] else st.1

/-- The startup chunker of check_and_ingest_wikipedia (main.py lines
126-142): split the content on blank lines, then greedily regroup
paragraphs into chunks. -/
def wikiChunks (content : List Char) : List (List Char) :=
  buildFrom (splitNl2 content) [] []

/-- No two adjacent newline characters occur in the list, i.e. the list
is free of the blank-line separator. -/
def noNl2 : List Char → Bool
  | a :: b :: rest => !(a == '\n' && b == '\n') && noNl2 (b :: rest)
  | _ => true

/-- The first character, if any, is not whitespace. -/
def noWsHead : List Char → Bool
  | [] => true
  | c :: _ => !c.isWhitespace

/-- The last character, if any, is not whitespace. -/
def noWsLast (l : List Char) : Bool := noWsHead l.reverse

/-- A paragraph that is non-empty and free of leading and trailing
whitespace. -/
def cleanPara (p : List Char) : Bool := !p.isEmpty && noWsHead p && noWsLast p

/-- Splitting every chunk back on the blank-line separator and
concatenating the resulting segment lists. -/
def flatSegs (cs : List (List Char)) : List (List Char) := (cs.map splitNl2).flatten

/-- A content string of two 500-character paragraphs separated by a
blank line. -/
def contentC6 : List Char := List.replicate 500 'a' ++ nl2 ++ List.replicate 500 'b'

/-- The scraped page data consumed by ingestion. -/
structure WikiData where
  title : String
  content : String
  meta : Metadata

/-- One document of the vector store collection. -/
structure DocEntry where
  id : String
  doc : String
  meta : Metadata
  deriving DecidableEq

/-- The vector store collection, as an ordered list of entries. -/
abbrev Collection := List DocEntry

/-- The fixed document id used by ingestion (main.py line 111). -/
def wikiDocId : String := "sai_sai_kham_leng_wiki"

/-- collection.get(ids=[i]): the entries carrying id i. -/
def collGet (c : Collection) (i : String) : List DocEntry :=
  c.filter (fun e => pyEq e.id i)

/-- collection.add with a single document. -/
def collAdd (c : Collection) (doc : String) (meta : Metadata) (i : String) : Collection :=
  c ++ [⟨i, doc, meta⟩]

/-- The chunk id string of main.py line 146. -/
def chunkId (i : Nat) : String := wikiDocId ++ "_chunk_" ++ toString i

/-- The per-chunk metadata of main.py lines 147-152. -/
def chunkMeta (w : WikiData) (i total : Nat) : Metadata :=
  w.meta ++ [("chunk_index", toString i), ("total_chunks", toString total),
    ("chunk_id", chunkId i)]

/-- The chunker applied to a string content. -/
def wikiChunksStr (content : String) : List String :=
  (wikiChunks content.data).map (fun l => String.mk l)

/-- check_and_ingest_wikipedia (main.py lines 108-171), acting on the
collection state; the scraped page is an input.  The second component
records whether scraping and ingestion were performed. -/
def check_and_ingest_wikipedia (c : Collection) (w : WikiData) : Collection × Bool :=
  if (collGet c wikiDocId).isEmpty = true then
    let chunks := wikiChunksStr w.content
    let c1 := chunks.enum.foldl
      (fun acc ic => collAdd acc ic.2 (chunkMeta w ic.1 chunks.length) (chunkId ic.1)) c
    (collAdd c1 w.content w.meta wikiDocId, true)
  else (c, false)

/-- The canned greeting reply and the computed age reply are distinct
strings, whatever the current date: they start with different letters. -/
theorem greetingResponse_ne_ageAnswer (t : PyDate) : greetingResponse ≠ ageAnswer t := by
  intro h
  have h2 : greetingResponse.data.head? = (ageAnswer t).data.head? := by rw [h]
  rw [show (ageAnswer t).data.head? = some 'S' from rfl,
      show greetingResponse.data.head? = some 'H' from rfl] at h2
  simp at h2

/-- C4: if the LLM relevance call raises, check_query_relevance returns
True, so on failure the query is classified as relevant by default and is
never blocked. -/
theorem relevance_error_defaults_true (q : String) :
    (check_query_relevance q (Except.error ())).1 = true := by
  unfold check_query_relevance
  by_cases hg : isGreetingRel q = true
  · simp [hg]
  · by_cases hc : isContextualRel q = true
    · simp [hg, hc]
    · simp [hg, hc]

/-- C1: when the relevance check judges the query relevant and the
normalized query matches the greeting phrase matcher of search_documents
or contains an age pattern, the /search/ endpoint returns empty
documents, metadatas, distances and ids, is_relevant true and a non-null
summary, and issues no query to the vector store. -/
theorem search_shortcut_bypasses_store (q : String) (today : PyDate)
    (llmRel llmSum : Except Unit String) (store : StoreResults)
    (hrel : (check_query_relevance q llmRel).1 = true)
    (hpat : (isGreetingSearch q || isAgeSearch q) = true) :
    (search_documents q today llmRel llmSum store).1.documents = [] ∧
    (search_documents q today llmRel llmSum store).1.metadatas = [] ∧
    (search_documents q today llmRel llmSum store).1.distances = [] ∧
    (search_documents q today llmRel llmSum store).1.ids = [] ∧
    (search_documents q today llmRel llmSum store).1.is_relevant = true ∧
    (search_documents q today llmRel llmSum store).1.summary ≠ none ∧
    (search_documents q today llmRel llmSum store).2 = false := by
  unfold search_documents
  simp [hrel, hpat]

/-- C1 witness: the query "hi" satisfies both hypotheses and the endpoint
does not consult the store. -/
theorem search_shortcut_bypasses_store_witness :
    (check_query_relevance "hi" (Except.ok "x")).1 = true ∧
    (isGreetingSearch "hi" || isAgeSearch "hi") = true ∧
    (search_documents "hi" ⟨2026, 10, 12⟩ (Except.ok "x") (Except.error ())
      ⟨[], [], [], []⟩).2 = false := by
  refine ⟨by decide, by decide, ?_⟩
  exact (search_shortcut_bypasses_store "hi" ⟨2026, 10, 12⟩ (Except.ok "x")
    (Except.error ()) ⟨[], [], [], []⟩ (by decide) (by decide)).2.2.2.2.2.2

/-- C2 counterexample: the query "alright" matches a shortcut matcher in
the sense of the claim (it is an acknowledgment pattern), yet
check_query_relevance does consult the LLM on it, because the pattern
lists of check_query_relevance omit "alright" and "got it". -/
theorem relevance_shortcut_counterexample :
    specShortcutMatch "alright" = true ∧
    (check_query_relevance "alright" (Except.error ())).2 = true := by
  constructor
  · decide
  · decide

/-- C2 amended: the LLM is consulted exactly when the normalized query
matches neither the greeting phrase matcher of check_query_relevance
itself (seventeen patterns, which include the farewell words and "ok"
and "okay" but not "alright" or "got it") nor its contextual substring
matcher (which includes the age patterns); a query matching either of
those two matchers is judged relevant without any LLM call. -/
theorem relevance_shortcut_amended (q : String) (llm : Except Unit String) :
    ((check_query_relevance q llm).2 = true ↔
      (isGreetingRel q || isContextualRel q) = false) ∧
    ((isGreetingRel q || isContextualRel q) = true →
      check_query_relevance q llm = (true, false)) := by
  unfold check_query_relevance
  by_cases hg : isGreetingRel q = true
  · simp [hg]
  · by_cases hc : isContextualRel q = true
    · simp [hg, hc]
    · cases llm <;> simp [hg, hc]

/-- C2 amended witness: "hi" matches the greeting matcher of
check_query_relevance and is judged relevant without an LLM call, even
when the LLM would have said no. -/
theorem relevance_shortcut_amended_witness :
    (isGreetingRel "hi" || isContextualRel "hi") = true ∧
    check_query_relevance "hi" (Except.ok "NO") = (true, false) := by
  exact ⟨by decide, (relevance_shortcut_amended "hi" (Except.ok "NO")).2 (by decide)⟩

/-- C3: summarize_search_results tests its matchers in the priority order
greetings, farewells, acknowledgments, age; in particular a query
matching both the greeting matcher and the age substring matcher gets the
greeting canned response, which is not the computed age answer. -/
theorem summarize_priority_order (q : String) (docs : List String) (today : PyDate)
    (llm : Except Unit String) :
    (isGreetingSum q = true →
      summarize_search_results q docs today llm = greetingResponse) ∧
    (isGreetingSum q = false → isFarewellSum q = true →
      summarize_search_results q docs today llm = farewellResponse) ∧
    (isGreetingSum q = false → isFarewellSum q = false → isAckSum q = true →
      summarize_search_results q docs today llm = ackResponse) ∧
    (isGreetingSum q = false → isFarewellSum q = false → isAckSum q = false →
      isAgeSum q = true →
      summarize_search_results q docs today llm = ageAnswer today) ∧
    (isGreetingSum q = true → isAgeSum q = true →
      summarize_search_results q docs today llm = greetingResponse ∧
      summarize_search_results q docs today llm ≠ ageAnswer today) := by
  refine ⟨?_, ?_, ?_, ?_, ?_⟩
  · intro hg; simp [summarize_search_results, hg]
  · intro hg hf; simp [summarize_search_results, hg, hf]
  · intro hg hf ha; simp [summarize_search_results, hg, hf, ha]
  · intro hg hf ha hage; simp [summarize_search_results, hg, hf, ha, hage]
  · intro hg hage
    refine ⟨by simp [summarize_search_results, hg], ?_⟩
    simp [summarize_search_results, hg]
    exact greetingResponse_ne_ageAnswer today

/-- C3 witness: "hi how old" matches both the greeting and the age
matcher and gets the greeting response. -/
theorem summarize_priority_order_witness :
    isGreetingSum "hi how old" = true ∧ isAgeSum "hi how old" = true ∧
    summarize_search_results "hi how old" [] ⟨2026, 10, 12⟩ (Except.error ()) =
      greetingResponse := by
  refine ⟨by decide, by decide, ?_⟩
  exact ((summarize_priority_order "hi how old" [] ⟨2026, 10, 12⟩
    (Except.error ())).2.2.2.2 (by decide) (by decide)).1

/-- C5 counterexample: "hi how old" contains the age pattern "how old",
yet summarize_search_results returns the greeting canned response, which
is not the computed age answer, because the greeting matcher has
priority. -/
theorem age_query_counterexample :
    isAgeSum "hi how old" = true ∧
    summarize_search_results "hi how old" [] ⟨2026, 10, 12⟩ (Except.error ()) =
      greetingResponse ∧
    greetingResponse ≠ ageAnswer ⟨2026, 10, 12⟩ := by
  refine ⟨by decide, by decide, by decide⟩

/-- C5 amended: for every query whose normalized form contains an age
pattern and matches none of the greeting, farewell and acknowledgment
matchers, summarize_search_results returns the deterministic age answer:
the current year minus 1979, minus one when the current month and day
precede April 10. -/
theorem age_answer_amended (q : String) (docs : List String) (today : PyDate)
    (llm : Except Unit String)
    (hg : isGreetingSum q = false) (hf : isFarewellSum q = false)
    (ha : isAckSum q = false) (hage : isAgeSum q = true) :
    summarize_search_results q docs today llm =
      "Sai Sai Kham Leng is currently " ++
        toString ((today.year : Int) - 1979 -
          (if today.month < 4 ∨ (today.month = 4 ∧ today.day < 10) then 1 else 0)) ++
        " years old. He was born on April 10, 1979." := by
  have h1 : summarize_search_results q docs today llm = ageAnswer today := by
    simp [summarize_search_results, hg, hf, ha, hage]
  rw [h1]
  unfold ageAnswer computeAge
  by_cases hb : today.month < 4 ∨ (today.month = 4 ∧ today.day < 10)
  · simp [hb]
  · simp [hb]

/-- C5 amended witness: "how old" on October 12, 2026 yields the age
answer computed by the stated formula. -/
theorem age_answer_amended_witness :
    isGreetingSum "how old" = false ∧ isFarewellSum "how old" = false ∧
    isAckSum "how old" = false ∧ isAgeSum "how old" = true ∧
    summarize_search_results "how old" [] ⟨2026, 10, 12⟩ (Except.error ()) =
      "Sai Sai Kham Leng is currently " ++
        toString ((2026 : Int) - 1979 -
          (if (10 : Nat) < 4 ∨ ((10 : Nat) = 4 ∧ (12 : Nat) < 10) then 1 else 0)) ++
        " years old. He was born on April 10, 1979." := by
  exact ⟨by decide, by decide, by decide, by decide,
    age_answer_amended "how old" [] ⟨2026, 10, 12⟩ (Except.error ())
      (by decide) (by decide) (by decide) (by decide)⟩

/-- C8: all routing classifications factor through the lowercased trimmed
query: two queries with the same normalization are classified alike by
every matcher of check_query_relevance, summarize_search_results and
search_documents. -/
theorem routing_normal_form (q r : String) (h : pyNorm q = pyNorm r) :
    isGreetingRel q = isGreetingRel r ∧ isContextualRel q = isContextualRel r ∧
    isGreetingSum q = isGreetingSum r ∧ isFarewellSum q = isFarewellSum r ∧
    isAckSum q = isAckSum r ∧ isAgeSum q = isAgeSum r ∧
    isGreetingSearch q = isGreetingSearch r ∧ isAgeSearch q = isAgeSearch r := by
  unfold isGreetingRel isContextualRel isGreetingSum isFarewellSum isAckSum
    isAgeSum isGreetingSearch isAgeSearch
  rw [h]
  exact ⟨rfl, rfl, rfl, rfl, rfl, rfl, rfl, rfl⟩

/-- C8 witness: a query with changed case and added outer whitespace
normalizes like its plain form and is classified alike. -/
theorem routing_normal_form_witness :
    pyNorm "  HI " = pyNorm "hi" ∧
    isGreetingSearch "  HI " = isGreetingSearch "hi" := by
  exact ⟨by decide, (routing_normal_form "  HI " "hi" (by decide)).2.2.2.2.2.2.1⟩

/-- C9: whenever the vector store returns parallel lists of equal
lengths, every QueryResponse of the /search/ endpoint has documents,
metadatas, distances and ids of equal lengths, and its summary is None
exactly when is_relevant is False. -/
theorem response_invariant (q : String) (today : PyDate)
    (llmRel llmSum : Except Unit String) (store : StoreResults)
    (h1 : store.documents.length = store.metadatas.length)
    (h2 : store.documents.length = store.distances.length)
    (h3 : store.documents.length = store.ids.length) :
    ((search_documents q today llmRel llmSum store).1.documents.length =
       (search_documents q today llmRel llmSum store).1.metadatas.length ∧
     (search_documents q today llmRel llmSum store).1.documents.length =
       (search_documents q today llmRel llmSum store).1.distances.length ∧
     (search_documents q today llmRel llmSum store).1.documents.length =
       (search_documents q today llmRel llmSum store).1.ids.length) ∧
    ((search_documents q today llmRel llmSum store).1.summary = none ↔
     (search_documents q today llmRel llmSum store).1.is_relevant = false) := by
  unfold search_documents
  by_cases hrel : (check_query_relevance q llmRel).1 = true
  · by_cases hpat : (isGreetingSearch q || isAgeSearch q) = true
    · simp [hrel, hpat]
    · by_cases hemp : store.documents.isEmpty = true
      · simp [hrel, hpat, hemp]
      · simp [hrel, hpat, hemp]
        omega
  · simp [hrel]

/-- C9 witness: the invariant at a concrete request with an empty store
result. -/
theorem response_invariant_witness :
    (([] : List String).length = ([] : List Metadata).length) ∧
    ((search_documents "x" ⟨2026, 1, 1⟩ (Except.ok "YES") (Except.ok "s")
        ⟨[], [], [], []⟩).1.summary = none ↔
     (search_documents "x" ⟨2026, 1, 1⟩ (Except.ok "YES") (Except.ok "s")
        ⟨[], [], [], []⟩).1.is_relevant = false) := by
  exact ⟨by decide,
    (response_invariant "x" ⟨2026, 1, 1⟩ (Except.ok "YES") (Except.ok "s")
      ⟨[], [], [], []⟩ rfl rfl rfl).2⟩

/-- An induction principle for lists following the recursion pattern of
splitNl2, which peels one or two leading characters. -/
theorem twoStepInduction {p : List Char → Prop} (h0 : p []) (h1 : ∀ c, p [c])
    (h2 : ∀ a b rest, p rest → p (b :: rest) → p (a :: b :: rest)) :
    ∀ l, p l
  | [] => h0
  | [c] => h1 c
  | a :: b :: rest =>
    h2 a b rest (twoStepInduction h0 h1 h2 rest) (twoStepInduction h0 h1 h2 (b :: rest))

/-- splitNl2 never returns the empty list of segments. -/
theorem splitNl2_ne_nil : ∀ l, splitNl2 l ≠ [] := by
  intro l
  induction l using twoStepInduction with
  | h0 => simp [splitNl2]
  | h1 c => simp [splitNl2]
  | h2 a b rest ih1 ih2 =>
    by_cases hab : (a == '\n' && b == '\n') = true
    · simp [splitNl2, hab]
    · cases hsp : splitNl2 (b :: rest) with
      | nil => exact absurd hsp ih2
      | cons g gs => simp [splitNl2, hab, hsp]

/-- When the first segment of splitNl2 is non-empty, its first character
is the first character of the input. -/
theorem splitNl2_head (l : List Char) (c : Char) (cs : List Char)
    (gs : List (List Char)) (h : splitNl2 l = (c :: cs) :: gs) :
    l.head? = some c := by
  match l with
  | [] => simp [splitNl2] at h
  | [d] =>
    simp [splitNl2] at h
    rw [h.1.1]
    simp
  | a :: b :: rest =>
    by_cases hab : (a == '\n' && b == '\n') = true
    · simp [splitNl2, hab] at h
    · cases hsp : splitNl2 (b :: rest) with
      | nil => exact absurd hsp (splitNl2_ne_nil _)
      | cons g hgs =>
        simp [splitNl2, hab, hsp] at h
        rw [h.1.1]
        simp

/-- The equation of splitNl2 on empty input. -/
theorem splitNl2_nil_eq : splitNl2 [] = [[]] := rfl

/-- The equation of splitNl2 on one character. -/
theorem splitNl2_one_eq (c : Char) : splitNl2 [c] = [[c]] := rfl

/-- The equation of splitNl2 on two or more characters. -/
theorem splitNl2_cons₂ (a b : Char) (rest : List Char) :
    splitNl2 (a :: b :: rest) =
      if a == '\n' && b == '\n' then [] :: splitNl2 rest
      else
        match splitNl2 (b :: rest) with
        | [] => [[a]]
        | g :: gs => (a :: g) :: gs := by
  rw [splitNl2]

/-- Every segment produced by splitNl2 is free of the blank-line
separator. -/
theorem noNl2_segments : ∀ l, ∀ p ∈ splitNl2 l, noNl2 p = true := by
  intro l
  induction l using twoStepInduction with
  | h0 => intro p hp; simp [splitNl2] at hp; simp [hp, noNl2]
  | h1 c => intro p hp; simp [splitNl2] at hp; simp [hp, noNl2]
  | h2 a b rest ih1 ih2 =>
    intro p hp
    by_cases hab : (a == '\n' && b == '\n') = true
    · simp [splitNl2, hab] at hp
      rcases hp with hp | hp
      · simp [hp, noNl2]
      · exact ih1 p hp
    · cases hsp : splitNl2 (b :: rest) with
      | nil => exact absurd hsp (splitNl2_ne_nil _)
      | cons g gs =>
        simp [splitNl2, hab, hsp] at hp
        rcases hp with hp | hp
        · subst hp
          cases g with
          | nil => simp [noNl2]
          | cons c cs =>
            have h3 : b = c := by
              have h4 := splitNl2_head (b :: rest) c cs gs hsp
              simpa using h4
            subst h3
            have hg : noNl2 (b :: cs) = true := ih2 _ (by simp [hsp])
            simp [noNl2, hg, hab]
        · exact ih2 p (by simp [hsp, hp])

/-- A list free of the blank-line separator is returned whole by
splitNl2. -/
theorem splitNl2_of_noNl2 : ∀ l, noNl2 l = true → splitNl2 l = [l] := by
  intro l
  induction l using twoStepInduction with
  | h0 => intro h; simp [splitNl2]
  | h1 c => intro h; simp [splitNl2]
  | h2 a b rest ih1 ih2 =>
    intro h
    simp only [noNl2, Bool.and_eq_true, Bool.not_eq_true'] at h
    rw [splitNl2_cons₂, if_neg (by simp [h.1]), ih2 h.2]

/-- The last element of a list with two or more elements is the last
element of its tail. -/
theorem getLast?_cons₂ (a b : Char) (l : List Char) :
    (a :: b :: l).getLast? = (b :: l).getLast? := by
  simp [List.getLast?]

/-- splitNl2 distributes over appending a blank-line separator, provided
the left part does not end in a newline (so no separator occurrence
spans the boundary). -/
theorem splitNl2_append : ∀ X R : List Char, X.getLast? ≠ some '\n' →
    splitNl2 (X ++ nl2 ++ R) = splitNl2 X ++ splitNl2 R := by
  intro X
  induction X using twoStepInduction with
  | h0 =>
    intro R h
    show splitNl2 ('\n' :: '\n' :: R) = splitNl2 [] ++ splitNl2 R
    rw [splitNl2_cons₂, if_pos (by simp), splitNl2_nil_eq]
    simp
  | h1 c =>
    intro R h
    have hc : ¬(c == '\n' && ('\n' : Char) == '\n') = true := by
      simp at h
      simp [h]
    show splitNl2 (c :: '\n' :: '\n' :: R) = splitNl2 [c] ++ splitNl2 R
    rw [splitNl2_cons₂, if_neg hc]
    rw [show splitNl2 ('\n' :: '\n' :: R) = [] :: splitNl2 R by
      rw [splitNl2_cons₂, if_pos (by simp)]]
    simp [splitNl2_one_eq]
  | h2 a b rest ih1 ih2 =>
    intro R h
    have hX : (a :: b :: rest) ++ nl2 ++ R = a :: b :: (rest ++ nl2 ++ R) := by
      simp [nl2]
    rw [hX]
    by_cases hab : (a == '\n' && b == '\n') = true
    · have hrest : rest ≠ [] := by
        intro hr
        subst hr
        simp at h hab
        exact h hab.2
      have hlast : rest.getLast? ≠ some '\n' := by
        rw [getLast?_cons₂] at h
        cases rest with
        | nil => exact absurd rfl hrest
        | cons x xs => rw [getLast?_cons₂] at h; exact h
      rw [splitNl2_cons₂, if_pos hab, ih1 R hlast]
      rw [show splitNl2 (a :: b :: rest) = [] :: splitNl2 rest by
        rw [splitNl2_cons₂, if_pos hab]]
      simp
    · have hlast : (b :: rest).getLast? ≠ some '\n' := by
        rw [getLast?_cons₂] at h
        exact h
      rw [splitNl2_cons₂, if_neg hab]
      have hbr : b :: (rest ++ nl2 ++ R) = (b :: rest) ++ nl2 ++ R := by simp
      rw [hbr, ih2 R hlast]
      cases hsp : splitNl2 (b :: rest) with
      | nil => exact absurd hsp (splitNl2_ne_nil _)
      | cons g gs =>
        rw [show splitNl2 (a :: b :: rest) = (a :: g) :: gs by
          rw [splitNl2_cons₂, if_neg hab, hsp]]
        simp

/-- Stripping never lengthens a list. -/
theorem stripL_length_le (l : List Char) : (stripL l).length ≤ l.length := by
  unfold stripL
  rw [List.length_reverse]
  calc ((l.dropWhile Char.isWhitespace).reverse.dropWhile Char.isWhitespace).length
      ≤ (l.dropWhile Char.isWhitespace).reverse.length :=
        (List.dropWhile_sublist _).length_le
    _ = (l.dropWhile Char.isWhitespace).length := List.length_reverse _
    _ ≤ l.length := (List.dropWhile_sublist _).length_le

/-- Stripping a list with non-whitespace edges is the identity. -/
theorem stripL_of_clean (l : List Char) (h1 : noWsHead l = true)
    (h2 : noWsLast l = true) : stripL l = l := by
  unfold stripL
  have hd : l.dropWhile Char.isWhitespace = l := by
    cases l with
    | nil => rfl
    | cons c t =>
      simp only [noWsHead, Bool.not_eq_true'] at h1
      simp [List.dropWhile_cons, h1]
  rw [hd]
  have hr : l.reverse.dropWhile Char.isWhitespace = l.reverse := by
    unfold noWsLast at h2
    cases hrev : l.reverse with
    | nil => rfl
    | cons c t =>
      rw [hrev] at h2
      simp only [noWsHead, Bool.not_eq_true'] at h2
      simp [List.dropWhile_cons, h2]
  rw [hr, List.reverse_reverse]

/-- A list whose last character is not whitespace does not end in a
newline. -/
theorem noWsLast_not_nl (l : List Char) (h : noWsLast l = true) :
    l.getLast? ≠ some '\n' := by
  intro hc
  unfold noWsLast at h
  rw [← List.head?_reverse] at hc
  cases hrev : l.reverse with
  | nil => rw [hrev] at hc; simp at hc
  | cons c t =>
    rw [hrev] at hc h
    simp at hc
    simp only [noWsHead, Bool.not_eq_true'] at h
    rw [hc] at h
    simp [Char.isWhitespace] at h

/-- flatSegs over appending one chunk. -/
theorem flatSegs_append_one (cs : List (List Char)) (x : List Char) :
    flatSegs (cs ++ [x]) = flatSegs cs ++ splitNl2 x := by
  simp [flatSegs]

/-- Unrolling one step of the chunking loop. -/
theorem buildFrom_cons (p : List Char) (ps chunks : List (List Char)) (cur : List Char) :
    buildFrom (p :: ps) chunks cur =
      buildFrom ps (chunkStep (chunks, cur) p).1 (chunkStep (chunks, cur) p).2 := by
  simp [buildFrom]

/-- The head of an append is the head of a non-empty left part. -/
theorem noWsHead_append (l l' : List Char) (h : l ≠ []) :
    noWsHead (l ++ l') = noWsHead l := by
  cases l with
  | nil => exact absurd rfl h
  | cons c t => simp [noWsHead]

/-- The last character of an append is the last character of a non-empty
right part. -/
theorem noWsLast_append (l l' : List Char) (h : l' ≠ []) :
    noWsLast (l ++ l') = noWsLast l' := by
  unfold noWsLast
  rw [List.reverse_append]
  exact noWsHead_append _ _ (by simp [h])

/-- Unpacking the conjuncts of cleanPara. -/
theorem cleanPara_parts (p : List Char) (h : cleanPara p = true) :
    p ≠ [] ∧ noWsHead p = true ∧ noWsLast p = true := by
  simp only [cleanPara, Bool.and_eq_true, Bool.not_eq_true'] at h
  refine ⟨?_, h.1.2, h.2⟩
  intro hnil
  subst hnil
  simp [List.isEmpty] at h

/-- The invariant of the chunking loop: when every remaining paragraph
has length at most 1000, every chunk in the state is at most 1002 long
and the accumulator is at most 1002 long, every emitted chunk is at most
1002 long (1000 plus the two separator characters appended when a
paragraph still fits). -/
theorem buildFrom_bound : ∀ (ps chunks : List (List Char)) (cur : List Char),
    (∀ p ∈ ps, p.length ≤ 1000) → (∀ c ∈ chunks, c.length ≤ 1002) →
    cur.length ≤ 1002 →
    ∀ c ∈ buildFrom ps chunks cur, c.length ≤ 1002 := by
  intro ps
  induction ps with
  | nil =>
    intro chunks cur _ hchunks hcur c hc
    unfold buildFrom at hc
    simp only [List.foldl_nil] at hc
    by_cases hne : cur ≠ []
    · rw [if_pos hne] at hc
      rcases List.mem_append.1 hc with h | h
      · exact hchunks c h
      · simp at h
        subst h
        exact le_trans (stripL_length_le cur) hcur
    · rw [if_neg hne] at hc
      exact hchunks c hc
  | cons p ps ih =>
    intro chunks cur hps hchunks hcur c hc
    rw [buildFrom_cons] at hc
    have hp : p.length ≤ 1000 := hps p (by simp)
    have hps' : ∀ q ∈ ps, q.length ≤ 1000 := fun q hq => hps q (by simp [hq])
    by_cases hcond : 1000 < cur.length + p.length ∧ cur ≠ []
    · have hstep : chunkStep (chunks, cur) p = (chunks ++ [stripL cur], p) := by
        simp [chunkStep, hcond]
      rw [hstep] at hc
      refine ih (chunks ++ [stripL cur]) p hps' ?_ (le_trans hp (by norm_num)) c hc
      intro d hd
      rcases List.mem_append.1 hd with h | h
      · exact hchunks d h
      · simp at h
        subst h
        exact le_trans (stripL_length_le cur) hcur
    · by_cases hne : cur ≠ []
      · have hsum : cur.length + p.length ≤ 1000 := by
          rcases not_and_or.1 hcond with h | h
          · omega
          · exact absurd hne h
        have hstep : chunkStep (chunks, cur) p = (chunks, cur ++ nl2 ++ p) := by
          simp [chunkStep, hsum, hne]
        rw [hstep] at hc
        refine ih chunks (cur ++ nl2 ++ p) hps' hchunks ?_ c hc
        have hlen : (cur ++ nl2 ++ p).length = cur.length + 2 + p.length := by
          simp [nl2]
          omega
        omega
      · have hstep : chunkStep (chunks, cur) p = (chunks, p) := by
          simp [chunkStep, hcond, hne]
        rw [hstep] at hc
        exact ih chunks p hps' hchunks (le_trans hp (by norm_num)) c hc

/-- The reconstruction invariant of the chunking loop: when every
remaining paragraph is non-empty, whitespace-clean and separator-free,
and the accumulator is empty or whitespace-clean and non-empty,
re-splitting the emitted chunks recovers the already-recorded segments,
then the segments of the accumulator, then the remaining paragraphs. -/
theorem buildFrom_reconstruct : ∀ (ps chunks : List (List Char)) (cur : List Char),
    (∀ p ∈ ps, cleanPara p = true ∧ noNl2 p = true) →
    (cur = [] ∨ (cur ≠ [] ∧ noWsHead cur = true ∧ noWsLast cur = true)) →
    flatSegs (buildFrom ps chunks cur) =
      flatSegs chunks ++ (if cur = [] then [] else splitNl2 cur) ++ ps := by
  intro ps
  induction ps with
  | nil =>
    intro chunks cur _ hcur
    unfold buildFrom
    simp only [List.foldl_nil]
    rcases hcur with hcur | hcur
    · subst hcur
      simp
    · rw [if_pos hcur.1, if_neg hcur.1, flatSegs_append_one,
        stripL_of_clean cur hcur.2.1 hcur.2.2]
      simp
  | cons p ps ih =>
    intro chunks cur hps hcur
    rw [buildFrom_cons]
    have hp := cleanPara_parts p (hps p (by simp)).1
    have hpn : noNl2 p = true := (hps p (by simp)).2
    have hps' : ∀ q ∈ ps, cleanPara q = true ∧ noNl2 q = true :=
      fun q hq => hps q (by simp [hq])
    by_cases hne : cur = []
    · subst hne
      have hstep : chunkStep (chunks, []) p = (chunks, p) := by
        simp [chunkStep]
      rw [hstep, ih chunks p hps' (Or.inr ⟨hp.1, hp.2.1, hp.2.2⟩),
        if_neg hp.1, splitNl2_of_noNl2 p hpn]
      simp
    · by_cases hbig : 1000 < cur.length + p.length
      · have hstep : chunkStep (chunks, cur) p = (chunks ++ [stripL cur], p) := by
          simp [chunkStep, hbig, hne]
        rcases hcur with hcur | hcur
        · exact absurd hcur hne
        rw [hstep, ih (chunks ++ [stripL cur]) p hps' (Or.inr ⟨hp.1, hp.2.1, hp.2.2⟩),
          if_neg hp.1, splitNl2_of_noNl2 p hpn, flatSegs_append_one,
          stripL_of_clean cur hcur.2.1 hcur.2.2, if_neg hne]
        simp
      · have hsum : cur.length + p.length ≤ 1000 := by omega
        have hstep : chunkStep (chunks, cur) p = (chunks, cur ++ nl2 ++ p) := by
          simp [chunkStep, hsum, hne]
        rcases hcur with hcur | hcur
        · exact absurd hcur hne
        have hinv : cur ++ nl2 ++ p ≠ [] ∧ noWsHead (cur ++ nl2 ++ p) = true ∧
            noWsLast (cur ++ nl2 ++ p) = true := by
          refine ⟨by simp [nl2], ?_, ?_⟩
          · rw [List.append_assoc, noWsHead_append cur _ hcur.1]
            exact hcur.2.1
          · rw [noWsLast_append _ p hp.1]
            exact hp.2.2
        rw [hstep, ih chunks (cur ++ nl2 ++ p) hps' (Or.inr hinv), if_neg hinv.1,
          splitNl2_append cur p (noWsLast_not_nl cur hcur.2.2),
          splitNl2_of_noNl2 p hpn, if_neg hne]
        simp

/-- C6 counterexample: a content of two 500-character paragraphs, each
well below 1000 characters, produces a chunk longer than 1000
characters, because the loop joins them with the two-character
separator after checking only that 500 plus 500 does not exceed 1000. -/
theorem chunk_length_counterexample :
    (∀ p ∈ splitNl2 contentC6, p.length ≤ 1000) ∧
    ∃ c ∈ wikiChunks contentC6, 1000 < c.length := by decide

/-- C6 amended: when every paragraph of the content has length at most
1000, every chunk produced by the startup chunker has length at most
1002 (the 1000-character budget plus one two-character blank-line
separator). -/
theorem chunk_length_amended (content : List Char)
    (h : ∀ p ∈ splitNl2 content, p.length ≤ 1000) :
    ∀ c ∈ wikiChunks content, c.length ≤ 1002 := by
  unfold wikiChunks
  exact buildFrom_bound (splitNl2 content) [] [] h (by simp) (by simp)

/-- C6 amended witness: the bound at a concrete two-paragraph content. -/
theorem chunk_length_amended_witness :
    (∀ p ∈ splitNl2 "a\n\nb".data, p.length ≤ 1000) ∧
    ∀ c ∈ wikiChunks "a\n\nb".data, c.length ≤ 1002 := by
  exact ⟨by decide, chunk_length_amended "a\n\nb".data (by decide)⟩

/-- C7: the chunker loses no text and preserves order: when every
paragraph of the content is non-empty and free of leading and trailing
whitespace, splitting the produced chunks back on the blank-line
separator and concatenating yields exactly the original paragraph
sequence. -/
theorem chunking_preserves_paragraphs (content : List Char)
    (h : ∀ p ∈ splitNl2 content, cleanPara p = true) :
    flatSegs (wikiChunks content) = splitNl2 content := by
  unfold wikiChunks
  rw [buildFrom_reconstruct (splitNl2 content) [] []
    (fun p hp => ⟨h p hp, noNl2_segments content p hp⟩) (Or.inl rfl)]
  simp [flatSegs]

/-- C7 witness: reconstruction at a concrete two-paragraph content. -/
theorem chunking_preserves_paragraphs_witness :
    (∀ p ∈ splitNl2 "a\n\nb".data, cleanPara p = true) ∧
    flatSegs (wikiChunks "a\n\nb".data) = splitNl2 "a\n\nb".data := by
  exact ⟨by decide, chunking_preserves_paragraphs "a\n\nb".data (by decide)⟩

/-- Adding a document under the wiki id makes the subsequent lookup
non-empty. -/
theorem collGet_last (c : Collection) (doc : String) (meta : Metadata) :
    (collGet (collAdd c doc meta wikiDocId) wikiDocId).isEmpty = false := by
  unfold collGet collAdd
  rw [List.filter_append]
  simp [pyEq]

/-- C10: ingestion is idempotent: a collection already holding the wiki
document id is returned unchanged with no scraping, and running
ingestion a second time leaves the state of the first run unchanged and
scrapes nothing. -/
theorem ingest_idempotent (c : Collection) (w : WikiData) :
    ((collGet c wikiDocId) ≠ [] → check_and_ingest_wikipedia c w = (c, false)) ∧
    check_and_ingest_wikipedia (check_and_ingest_wikipedia c w).1 w =
      ((check_and_ingest_wikipedia c w).1, false) := by
  constructor
  · intro h
    unfold check_and_ingest_wikipedia
    rw [if_neg (by simp [h])]
  · by_cases h : (collGet c wikiDocId).isEmpty = true
    · have h1 : check_and_ingest_wikipedia c w =
          (collAdd ((wikiChunksStr w.content).enum.foldl
            (fun acc ic => collAdd acc ic.2
              (chunkMeta w ic.1 (wikiChunksStr w.content).length) (chunkId ic.1)) c)
            w.content w.meta wikiDocId, true) := by
        unfold check_and_ingest_wikipedia
        rw [if_pos h]
      rw [h1]
      unfold check_and_ingest_wikipedia
      rw [if_neg (by simp [collGet_last])]
    · have h1 : check_and_ingest_wikipedia c w = (c, false) := by
        unfold check_and_ingest_wikipedia
        rw [if_neg h]
      rw [h1]
      unfold check_and_ingest_wikipedia
      rw [if_neg h]

/-- C10 witness: a collection already holding the wiki document is left
unchanged without scraping. -/
theorem ingest_idempotent_witness :
    (collGet [⟨wikiDocId, "x", []⟩] wikiDocId ≠ []) ∧
    check_and_ingest_wikipedia [⟨wikiDocId, "x", []⟩] ⟨"t", "c", []⟩ =
      ([⟨wikiDocId, "x", []⟩], false) := by
  exact ⟨by decide, (ingest_idempotent [⟨wikiDocId, "x", []⟩] ⟨"t", "c", []⟩).1 (by decide)⟩

end ChatWiki
